import Mathlib

/-
Verification of the coordinate-binned join and coverage-classification
engine of `src/fscoverage.py` (class `ExcelEditorApp`), via a shallow
embedding of its dataframe operations.

Modelling conventions:
  * A pandas cell value is a `Value`: `null` stands for both Python `None`
    and float NaN (pandas conflates them in numeric columns and `pd.isna`
    is true for both); finite floats are rationals `num q`; the two IEEE
    infinities are `posInf` and `negInf`; strings are `str s`; datetimes
    are `dtv t` with `t` the number of seconds since an arbitrary epoch
    (the code only adds `timedelta` offsets and formats the time of day,
    so the epoch choice is immaterial).
  * A dataframe `Df` is its ordered column-name list, its row count and a
    total cell function; the index is the range `0 .. nrows-1`, which is
    what `pd.read_csv` and the initial `pd.DataFrame()` produce here.
    Cells outside the column list or row range are junk; `Df.Eq` is
    observational equality on the meaningful region.
  * `df[name] = series` is `setColSeries`: on the freshly initialised
    empty dataframe (no columns) pandas adopts the index of the assigned
    series; otherwise it aligns on the existing index, padding missing
    labels with NaN and dropping labels beyond the dataframe, and appends
    the column at the end if new. `df[name] = scalar` is `setColScalar`.
-/

namespace FsCoverage

inductive Value where
  | null
  | num (q : ℚ)
  | posInf
  | negInf
  | str (s : String)
  | dtv (t : ℕ)
deriving DecidableEq

/-- A pandas dataframe with index `0 .. nrows-1`. -/
structure Df where
  cols : List String
  nrows : ℕ
  cell : String → ℕ → Value

/-- Observational equality of dataframes: same columns in the same order,
same row count, same cells on every (column, row) of the meaningful region. -/
def Df.Eq (a b : Df) : Prop :=
  a.cols = b.cols ∧ a.nrows = b.nrows ∧
    ∀ c ∈ a.cols, ∀ r < a.nrows, a.cell c r = b.cell c r

instance (a b : Df) : Decidable (a.Eq b) := by
  unfold Df.Eq; infer_instance

/-- The freshly initialised `pd.DataFrame()`. -/
def emptyDf : Df := ⟨[], 0, fun _ _ => Value.null⟩

/-- `df[name] = series` where the series has index `0 .. len-1` and values
`vals`.  On the empty dataframe pandas adopts the index of the series;
otherwise it aligns on the existing index (NaN-padding or truncating) and
appends the column at the end when it is new. -/
def setColSeries (df : Df) (name : String) (vals : ℕ → Value) (len : ℕ) : Df :=
  if df.cols = [] then
    { cols := [name], nrows := len,
      cell := fun c r => if c = name then (if r < len then vals r else Value.null) else Value.null }
  else
    { cols := if name ∈ df.cols then df.cols else df.cols ++ [name],
      nrows := df.nrows,
      cell := fun c r => if c = name then (if r < len then vals r else Value.null) else df.cell c r }

/-- `df[name] = scalar`: broadcast to every row. -/
def setColScalar (df : Df) (name : String) (v : Value) : Df :=
  { cols := if name ∈ df.cols then df.cols else df.cols ++ [name],
    nrows := df.nrows,
    cell := fun c r => if c = name then v else df.cell c r }

/-- `df.drop(columns=names)` (index is kept). -/
def dropCols (df : Df) (names : List String) : Df :=
  { cols := df.cols.filter (fun c => decide (c ∉ names)),
    nrows := df.nrows,
    cell := fun c r => if c ∈ names then Value.null else df.cell c r }

theorem setColSeries_cell (df : Df) (name : String) (vals : ℕ → Value) (len : ℕ)
    (c : String) (r : ℕ) :
    (setColSeries df name vals len).cell c r =
      if c = name then (if r < len then vals r else Value.null)
      else (if df.cols = [] then Value.null else df.cell c r) := by
  unfold setColSeries
  by_cases h : df.cols = [] <;> simp [h]

theorem setColSeries_nrows (df : Df) (name : String) (vals : ℕ → Value) (len : ℕ) :
    (setColSeries df name vals len).nrows = if df.cols = [] then len else df.nrows := by
  unfold setColSeries
  by_cases h : df.cols = [] <;> simp [h]

theorem setColSeries_cols (df : Df) (name : String) (vals : ℕ → Value) (len : ℕ) :
    (setColSeries df name vals len).cols =
      if df.cols = [] then [name]
      else (if name ∈ df.cols then df.cols else df.cols ++ [name]) := by
  unfold setColSeries
  by_cases h : df.cols = [] <;> simp [h]

theorem mem_setColSeries_cols (df : Df) (name : String) (vals : ℕ → Value) (len : ℕ)
    (c : String) :
    c ∈ (setColSeries df name vals len).cols ↔ c = name ∨ c ∈ df.cols := by
  rw [setColSeries_cols]
  by_cases h : df.cols = [] <;> simp [h]
  by_cases hm : name ∈ df.cols <;> simp [hm]
  · exact fun hc => hc ▸ hm
  · tauto

theorem setColScalar_cell (df : Df) (name : String) (v : Value) (c : String) (r : ℕ) :
    (setColScalar df name v).cell c r = if c = name then v else df.cell c r := rfl

theorem setColScalar_cols (df : Df) (name : String) (v : Value) :
    (setColScalar df name v).cols =
      if name ∈ df.cols then df.cols else df.cols ++ [name] := rfl

theorem setColScalar_nrows (df : Df) (name : String) (v : Value) :
    (setColScalar df name v).nrows = df.nrows := rfl

theorem mem_setColScalar_cols (df : Df) (name : String) (v : Value) (c : String) :
    c ∈ (setColScalar df name v).cols ↔ c = name ∨ c ∈ df.cols := by
  unfold setColScalar
  by_cases hm : name ∈ df.cols <;> simp [hm]
  · exact fun hc => hc ▸ hm
  · tauto

theorem setColScalar_cols_ne (df : Df) (name : String) (v : Value)
    (h : df.cols ≠ []) : (setColScalar df name v).cols ≠ [] := by
  unfold setColScalar
  by_cases hm : name ∈ df.cols <;> simp [hm, h]

theorem setColSeries_cols_ne (df : Df) (name : String) (vals : ℕ → Value) (len : ℕ) :
    (setColSeries df name vals len).cols ≠ [] := by
  rw [setColSeries_cols]
  by_cases h : df.cols = [] <;> simp [h]
  by_cases hm : name ∈ df.cols <;> simp [hm, h]

/-! ## Gateway classifier (`classify_gateway`, src/fscoverage.py lines 154-161) -/

/-- `pd.isna` on a cell: true for `None` and NaN (both `Value.null`). -/
def isna : Value → Bool
  | Value.null => true
  | _ => false

/-- Python `<=` on the float cells the classifier compares (finite floats and
the two infinities; NaN compares false with everything). -/
def vle : Value → Value → Bool
  | Value.num a, Value.num b => decide (a ≤ b)
  | Value.num _, Value.posInf => true
  | Value.negInf, Value.num _ => true
  | Value.negInf, Value.negInf => true
  | Value.negInf, Value.posInf => true
  | Value.posInf, Value.posInf => true
  | _, _ => false

/-- Python `<` on the same domain. -/
def vlt : Value → Value → Bool
  | Value.num a, Value.num b => decide (a < b)
  | Value.num _, Value.posInf => true
  | Value.negInf, Value.num _ => true
  | Value.negInf, Value.posInf => true
  | _, _ => false

/-- `classify_gateway(rssi)`: `None` for missing readings, `"YES"` for
`-70 <= rssi <= -10`, `"NO"` for `-200 <= rssi < -70`, `None` otherwise.
A total function: the Python code has no raising path for float input. -/
def classify_gateway (rssi : Value) : Value :=
  if isna rssi then Value.null
  else if vle (Value.num (-70)) rssi && vle rssi (Value.num (-10)) then Value.str "YES"
  else if vle (Value.num (-200)) rssi && vlt rssi (Value.num (-70)) then Value.str "NO"
  else Value.null

/-- C1: the gateway classifier is a total function from a signal value to a
verdict (the Python `None` verdict models UNKNOWN): a null/NaN signal gives
UNKNOWN; a finite signal in `[-70, -10]` gives YES; a finite signal in
`[-200, -70)` gives NO; any other value (below `-200`, above `-10`, or either
infinity) gives UNKNOWN; in particular `-70` and `-10` give YES, `-200`
gives NO, and `-200.0001` gives UNKNOWN. Totality (it never raises) is
reflected by `classify_gateway` being a total Lean function on `Value`. -/
theorem C1_classify_gateway :
    classify_gateway Value.null = Value.null ∧
    (∀ q : ℚ, -70 ≤ q → q ≤ -10 → classify_gateway (Value.num q) = Value.str "YES") ∧
    (∀ q : ℚ, -200 ≤ q → q < -70 → classify_gateway (Value.num q) = Value.str "NO") ∧
    (∀ q : ℚ, q < -200 ∨ -10 < q → classify_gateway (Value.num q) = Value.null) ∧
    classify_gateway Value.posInf = Value.null ∧
    classify_gateway Value.negInf = Value.null ∧
    classify_gateway (Value.num (-70)) = Value.str "YES" ∧
    classify_gateway (Value.num (-10)) = Value.str "YES" ∧
    classify_gateway (Value.num (-200)) = Value.str "NO" ∧
    classify_gateway (Value.num (-2000001 / 10000)) = Value.null := by
  refine ⟨rfl, ?_, ?_, ?_, rfl, rfl, by decide, by decide, by decide, ?_⟩
  · intro q h1 h2
    simp [classify_gateway, isna, vle, h1, h2]
  · intro q h1 h2
    have h3 : ¬ (-70 : ℚ) ≤ q := by linarith
    simp [classify_gateway, isna, vle, vlt, h1, h2, h3]
  · intro q hq
    rcases hq with h | h
    · have h1 : ¬ (-70 : ℚ) ≤ q := by linarith
      have h2 : ¬ (-200 : ℚ) ≤ q := by linarith
      simp [classify_gateway, isna, vle, vlt, h1, h2]
    · have h1 : ¬ q ≤ -10 := by linarith
      have h2 : ¬ q < -70 := by linarith
      simp [classify_gateway, isna, vle, vlt, h1, h2]
  · have h1 : ¬ (-70 : ℚ) ≤ (-2000001 / 10000 : ℚ) := by norm_num
    have h2 : ¬ (-200 : ℚ) ≤ (-2000001 / 10000 : ℚ) := by norm_num
    simp [classify_gateway, isna, vle, vlt, h1, h2]

/-- C1 witness: the quantified parts of `C1_classify_gateway` applied at
concrete signal values. -/
theorem C1_classify_gateway_witness :
    classify_gateway (Value.num (-45)) = Value.str "YES" ∧
    classify_gateway (Value.num (-100)) = Value.str "NO" ∧
    classify_gateway (Value.num (-300)) = Value.null ∧
    classify_gateway (Value.num 5) = Value.null :=
  ⟨C1_classify_gateway.2.1 (-45) (by norm_num) (by norm_num),
   C1_classify_gateway.2.2.1 (-100) (by norm_num) (by norm_num),
   C1_classify_gateway.2.2.2.1 (-300) (Or.inl (by norm_num)),
   C1_classify_gateway.2.2.2.1 5 (Or.inr (by norm_num))⟩

/-! ## Location-file ingestion (`load_csv`, src/fscoverage.py lines 341-360) -/

/-- `load_csv`: if the file has `Latitud` and `Longitud` columns, assign the
two coordinate columns from it and set the three hardcoded constant
columns; otherwise leave the table unchanged.  The assignments go into the
existing `self.df` (no reset). -/
def load_csv (df : Df) (csv : Df) : Df :=
  if "Latitud" ∈ csv.cols ∧ "Longitud" ∈ csv.cols then
    let d1 := setColSeries df "Latitude - Functional Location" (csv.cell "Latitud") csv.nrows
    let d2 := setColSeries d1 "Longitude - Functional Location" (csv.cell "Longitud") csv.nrows
    let d3 := setColScalar d2 "Service Account - Work Order" (Value.str "ANER_Senegal")
    let d4 := setColScalar d3 "Billing Account - Work Order" (Value.str "ANER_Senegal")
    setColScalar d4 "Work Order Type - Work Order" (Value.str "Installation")
  else df

/-- The row count after `load_csv` on a valid file: the file's row count only
when the table was the freshly initialised empty dataframe, the old row
count otherwise. -/
theorem load_csv_nrows (df csv : Df)
    (hv : "Latitud" ∈ csv.cols ∧ "Longitud" ∈ csv.cols) :
    (load_csv df csv).nrows = if df.cols = [] then csv.nrows else df.nrows := by
  unfold load_csv
  rw [if_pos hv]
  show (setColScalar _ _ _).nrows = _
  rw [setColScalar_nrows, setColScalar_nrows, setColScalar_nrows, setColSeries_nrows]
  rw [setColSeries_cols]
  by_cases h : df.cols = [] <;> simp [h, setColSeries_nrows]
  by_cases hm : "Latitude - Functional Location" ∈ df.cols <;> simp [hm, h]

/-- Membership in the columns after `load_csv` on a valid file. -/
theorem mem_load_csv_cols (df csv : Df)
    (hv : "Latitud" ∈ csv.cols ∧ "Longitud" ∈ csv.cols) (c : String) :
    c ∈ (load_csv df csv).cols ↔
      c = "Latitude - Functional Location" ∨ c = "Longitude - Functional Location" ∨
      c = "Service Account - Work Order" ∨ c = "Billing Account - Work Order" ∨
      c = "Work Order Type - Work Order" ∨ c ∈ df.cols := by
  unfold load_csv
  rw [if_pos hv]
  show c ∈ (setColScalar _ _ _).cols ↔ _
  rw [mem_setColScalar_cols, mem_setColScalar_cols, mem_setColScalar_cols,
    mem_setColSeries_cols, mem_setColSeries_cols]
  tauto

/-- Cell values after `load_csv` on a valid file. -/
theorem load_csv_cell (df csv : Df)
    (hv : "Latitud" ∈ csv.cols ∧ "Longitud" ∈ csv.cols) (c : String) (r : ℕ) :
    (load_csv df csv).cell c r =
      if c = "Work Order Type - Work Order" then Value.str "Installation"
      else if c = "Billing Account - Work Order" then Value.str "ANER_Senegal"
      else if c = "Service Account - Work Order" then Value.str "ANER_Senegal"
      else if c = "Longitude - Functional Location" then
        (if r < csv.nrows then csv.cell "Longitud" r else Value.null)
      else if c = "Latitude - Functional Location" then
        (if r < csv.nrows then csv.cell "Latitud" r else Value.null)
      else if df.cols = [] then Value.null else df.cell c r := by
  unfold load_csv
  rw [if_pos hv]
  show (setColScalar _ _ _).cell c r = _
  rw [setColScalar_cell, setColScalar_cell, setColScalar_cell, setColSeries_cell,
    if_neg (setColSeries_cols_ne df "Latitude - Functional Location"
      (csv.cell "Latitud") csv.nrows),
    setColSeries_cell]

/-- When the five assigned column names are already present in a non-empty
table, `load_csv` leaves the column list exactly as it was. -/
theorem load_csv_cols_of_mem (d csv : Df)
    (hv : "Latitud" ∈ csv.cols ∧ "Longitud" ∈ csv.cols)
    (hne : d.cols ≠ [])
    (h1 : "Latitude - Functional Location" ∈ d.cols)
    (h2 : "Longitude - Functional Location" ∈ d.cols)
    (h3 : "Service Account - Work Order" ∈ d.cols)
    (h4 : "Billing Account - Work Order" ∈ d.cols)
    (h5 : "Work Order Type - Work Order" ∈ d.cols) :
    (load_csv d csv).cols = d.cols := by
  unfold load_csv
  rw [if_pos hv]
  show (setColScalar _ _ _).cols = _
  have e1 : (setColSeries d "Latitude - Functional Location"
      (csv.cell "Latitud") csv.nrows).cols = d.cols := by
    rw [setColSeries_cols, if_neg hne, if_pos h1]
  have e2 : (setColSeries (setColSeries d "Latitude - Functional Location"
      (csv.cell "Latitud") csv.nrows) "Longitude - Functional Location"
      (csv.cell "Longitud") csv.nrows).cols = d.cols := by
    rw [setColSeries_cols, e1, if_neg hne, if_pos h2]
  rw [setColScalar_cols, setColScalar_cols, setColScalar_cols, e2,
    if_pos h3, if_pos h4, if_pos h5]

/-- Concrete prior table for the C6 counterexample: two rows, a coordinate
column and a derived `Gateway` column left over from a previous session
step. -/
def df6cex : Df :=
  { cols := ["Latitude - Functional Location", "Gateway"], nrows := 2,
    cell := fun c r =>
      if c = "Latitude - Functional Location" then Value.num 1
      else if c = "Gateway" then (if r = 0 then Value.str "YES" else Value.str "NO")
      else Value.null }

/-- Concrete one-row location file for the C6 counterexample. -/
def csv6cex : Df :=
  { cols := ["Latitud", "Longitud"], nrows := 1,
    cell := fun c _ =>
      if c = "Latitud" then Value.num 5 else if c = "Longitud" then Value.num 6
      else Value.null }

/-- C6 counterexample: ingesting a valid one-row location file into a
two-row WorkingTable does not replace the table wholesale — the result
keeps the prior two rows (not one row per file row) and keeps the leftover
`Gateway` column, so the rows are not determined solely by the file. -/
theorem C6_load_csv_counterexample :
    csv6cex.nrows = 1 ∧
    "Latitud" ∈ csv6cex.cols ∧ "Longitud" ∈ csv6cex.cols ∧
    (load_csv df6cex csv6cex).nrows = 2 ∧
    "Gateway" ∈ (load_csv df6cex csv6cex).cols ∧
    (load_csv df6cex csv6cex).cell "Gateway" 0 = Value.str "YES" := by
  refine ⟨rfl, by decide, by decide, ?_, ?_, ?_⟩
  · rw [load_csv_nrows df6cex csv6cex ⟨by decide, by decide⟩]
    decide
  · rw [mem_load_csv_cols df6cex csv6cex ⟨by decide, by decide⟩]
    decide
  · rw [load_csv_cell df6cex csv6cex ⟨by decide, by decide⟩]
    decide

/-- C6 (amended): ingesting a location file does not reset the table; it
assigns the two coordinate columns from the file (aligned on the existing
index: rows beyond the file get null, file rows beyond the table are
dropped) and broadcasts the three constant columns, while every other
column, and the row count of a non-empty table, are preserved.  Only when
the table is the freshly initialised empty dataframe is the result
determined solely by the file.  Ingesting the same file twice gives the
same table as ingesting it once. -/
theorem C6_load_csv_amended (df csv : Df)
    (hv : "Latitud" ∈ csv.cols ∧ "Longitud" ∈ csv.cols) :
    ((df.cols ≠ [] → (load_csv df csv).nrows = df.nrows) ∧
     (df.cols = [] → (load_csv df csv).nrows = csv.nrows)) ∧
    (∀ c, c ∉ ["Latitude - Functional Location", "Longitude - Functional Location",
        "Service Account - Work Order", "Billing Account - Work Order",
        "Work Order Type - Work Order"] → df.cols ≠ [] →
      ∀ r, (load_csv df csv).cell c r = df.cell c r) ∧
    (∀ r, r < csv.nrows →
      (load_csv df csv).cell "Latitude - Functional Location" r = csv.cell "Latitud" r ∧
      (load_csv df csv).cell "Longitude - Functional Location" r = csv.cell "Longitud" r) ∧
    Df.Eq (load_csv (load_csv df csv) csv) (load_csv df csv) := by
  refine ⟨⟨?_, ?_⟩, ?_, ?_, ?_⟩
  · intro h; rw [load_csv_nrows df csv hv, if_neg h]
  · intro h; rw [load_csv_nrows df csv hv, if_pos h]
  · intro c hc h r
    rw [load_csv_cell df csv hv]
    simp only [List.mem_cons, List.not_mem_nil] at hc
    push_neg at hc
    obtain ⟨n1, n2, n3, n4, n5, -⟩ := hc
    simp [n1, n2, n3, n4, n5, h]
  · intro r hr
    constructor <;> rw [load_csv_cell df csv hv] <;> simp [hr]
  · have hne : (load_csv df csv).cols ≠ [] := by
      intro h
      have : "Work Order Type - Work Order" ∈ (load_csv df csv).cols := by
        rw [mem_load_csv_cols df csv hv]; tauto
      rw [h] at this; cases this
    refine ⟨?_, ?_, ?_⟩
    · exact load_csv_cols_of_mem (load_csv df csv) csv hv hne
        (by rw [mem_load_csv_cols df csv hv]; tauto)
        (by rw [mem_load_csv_cols df csv hv]; tauto)
        (by rw [mem_load_csv_cols df csv hv]; tauto)
        (by rw [mem_load_csv_cols df csv hv]; tauto)
        (by rw [mem_load_csv_cols df csv hv]; tauto)
    · rw [load_csv_nrows _ csv hv, if_neg hne]
    · intro c hc r hr
      rw [load_csv_cell _ csv hv]
      by_cases h1 : c = "Work Order Type - Work Order"
      · rw [load_csv_cell df csv hv]; simp [h1]
      by_cases h2 : c = "Billing Account - Work Order"
      · rw [load_csv_cell df csv hv]; simp [h1, h2]
      by_cases h3 : c = "Service Account - Work Order"
      · rw [load_csv_cell df csv hv]; simp [h1, h2, h3]
      by_cases h4 : c = "Longitude - Functional Location"
      · rw [load_csv_cell df csv hv]; simp [h1, h2, h3, h4]
      by_cases h5 : c = "Latitude - Functional Location"
      · rw [load_csv_cell df csv hv]; simp [h1, h2, h3, h4, h5]
      simp [h1, h2, h3, h4, h5, hne]

/-- C6 witness: the amended ingestion theorem applied at the concrete
two-row table and one-row file. -/
theorem C6_load_csv_amended_witness :
    (load_csv df6cex csv6cex).cell "Gateway" 1 = df6cex.cell "Gateway" 1 ∧
    (load_csv df6cex csv6cex).cell "Latitude - Functional Location" 0 =
      csv6cex.cell "Latitud" 0 ∧
    Df.Eq (load_csv (load_csv df6cex csv6cex) csv6cex) (load_csv df6cex csv6cex) := by
  have h := C6_load_csv_amended df6cex csv6cex ⟨by decide, by decide⟩
  exact ⟨h.2.1 "Gateway" (by decide) (by decide) 1, (h.2.2.1 0 (by decide)).1, h.2.2.2⟩

/-! ## Coverage matching (`load_coverage_csv`, src/fscoverage.py lines 130-170) -/

/-- `round(x, 10)` on a finite float, as the rational rounding of
`x * 10 ^ p` scaled back (exact half-way ties are immaterial to the
claims, so round-half-up stands in for the float rounding). -/
def roundTo (p : ℕ) (q : ℚ) : ℚ := (((q * 10 ^ p + 1 / 2).floor : ℤ) : ℚ) / 10 ^ p

theorem ratFloor_eq_intFloor (q : ℚ) : q.floor = ⌊q⌋ := by
  rw [Rat.floor_def', Rat.floor_def]

/-- Rounding does not move a value that is already an integer. -/
theorem roundTo_intCast (p : ℕ) (n : ℤ) : roundTo p ((n : ℤ) : ℚ) = ((n : ℤ) : ℚ) := by
  unfold roundTo
  rw [ratFloor_eq_intFloor, ← round_eq]
  have h : ((n : ℚ) * 10 ^ p) = (((n * 10 ^ p : ℤ)) : ℚ) := by push_cast; ring
  rw [h, round_intCast]
  have hp : (10 : ℚ) ^ p ≠ 0 := by positivity
  push_cast
  exact mul_div_cancel_right₀ _ hp

/-- `.round(10)` applied to one cell: finite floats are rounded, everything
else (NaN in particular) is left as it is. -/
def binOf (v : Value) : Value :=
  match v with
  | Value.num q => Value.num (roundTo 10 q)
  | x => x

/-- The `(LatBin, LonBin)` key of row `r` of the location table. -/
def binKey (df : Df) (r : ℕ) : Value × Value :=
  (binOf (df.cell "Latitude - Functional Location" r),
   binOf (df.cell "Longitude - Functional Location" r))

/-- The `(LatBin, LonBin)` key of row `r` of the coverage table. -/
def covKey (cov : Df) (r : ℕ) : Value × Value :=
  (binOf (cov.cell "Latitud" r), binOf (cov.cell "Longitud" r))

/-- The `(LatBin, LonBin, signal)` entries of the coverage table, in row
order. -/
def coverageEntries (cov : Df) : List ((Value × Value) × Value) :=
  (List.range cov.nrows).map fun r => (covKey cov r, cov.cell "RSSI / RSCP (dBm)" r)

/-- `Series.to_dict()` over entries with possibly duplicated keys: the
resulting lookup function, where a later entry overwrites an earlier one
with the same key. -/
def buildMap (l : List ((Value × Value) × Value)) : Value × Value → Option Value :=
  l.foldl (fun m e k => if k = e.1 then some e.2 else m k) (fun _ => none)

/-- `coverage_map = df_cov.set_index(["LatBin", "LonBin"])["RSSI / RSCP (dBm)"].to_dict()`. -/
def coverage_map (cov : Df) : Value × Value → Option Value :=
  buildMap (coverageEntries cov)

/-- Whether the coverage file has the three required columns. -/
def covColsOk (cov : Df) : Prop :=
  "Latitud" ∈ cov.cols ∧ "Longitud" ∈ cov.cols ∧ "RSSI / RSCP (dBm)" ∈ cov.cols

instance (cov : Df) : Decidable (covColsOk cov) := by
  unfold covColsOk; infer_instance

/-- `load_coverage_csv`: check the coverage columns, add the `LatBin` and
`LonBin` bin columns to both tables, build the bin-to-signal dictionary,
attach the looked-up `dBm` value (`None` when the key is absent), derive
the `Gateway` verdict, and drop the bin columns. -/
def load_coverage_csv (df : Df) (cov : Df) : Df :=
  if covColsOk cov then
    let d1 := setColSeries df "LatBin"
      (fun r => binOf (df.cell "Latitude - Functional Location" r)) df.nrows
    let d2 := setColSeries d1 "LonBin"
      (fun r => binOf (df.cell "Longitude - Functional Location" r)) d1.nrows
    let m := coverage_map cov
    let d3 := setColSeries d2 "dBm"
      (fun r => (m (d2.cell "LatBin" r, d2.cell "LonBin" r)).getD Value.null) d2.nrows
    let d4 := setColSeries d3 "Gateway"
      (fun r => classify_gateway (d3.cell "dBm" r)) d3.nrows
    dropCols d4 ["LatBin", "LonBin"]
  else df

theorem dropCols_cell (df : Df) (names : List String) (c : String) (r : ℕ) :
    (dropCols df names).cell c r = if c ∈ names then Value.null else df.cell c r := rfl

theorem load_coverage_csv_nrows (df cov : Df) (hv : covColsOk cov) :
    (load_coverage_csv df cov).nrows = df.nrows := by
  unfold load_coverage_csv
  rw [if_pos hv]
  show (dropCols _ _).nrows = _
  unfold dropCols
  rw [setColSeries_nrows, if_neg (setColSeries_cols_ne _ _ _ _),
    setColSeries_nrows, if_neg (setColSeries_cols_ne _ _ _ _),
    setColSeries_nrows, if_neg (setColSeries_cols_ne _ _ _ _),
    setColSeries_nrows]
  by_cases h : df.cols = [] <;> simp [h, setColSeries_nrows]

/-- The matched signal cell after `load_coverage_csv`: the dictionary value
at the row's bin key, or null when the key is absent. -/
theorem load_coverage_csv_cell_dBm (df cov : Df) (hv : covColsOk cov)
    (r : ℕ) (hr : r < df.nrows) :
    (load_coverage_csv df cov).cell "dBm" r =
      (coverage_map cov (binKey df r)).getD Value.null := by
  unfold load_coverage_csv
  rw [if_pos hv]
  show (dropCols _ _).cell "dBm" r = _
  simp [dropCols_cell, setColSeries_cell, setColSeries_nrows, setColSeries_cols_ne,
    hr, binKey]

/-- The gateway verdict cell after `load_coverage_csv`: the classifier
applied to the matched signal cell. -/
theorem load_coverage_csv_cell_gateway (df cov : Df) (hv : covColsOk cov)
    (r : ℕ) (hr : r < df.nrows) :
    (load_coverage_csv df cov).cell "Gateway" r =
      classify_gateway ((coverage_map cov (binKey df r)).getD Value.null) := by
  unfold load_coverage_csv
  rw [if_pos hv]
  show (dropCols _ _).cell "Gateway" r = _
  simp [dropCols_cell, setColSeries_cell, setColSeries_nrows, setColSeries_cols_ne,
    hr, binKey]

/-- C4: a location row whose coordinate bin key has no entry in the
coverage dictionary gets a null matched signal (not zero, not an error)
and an UNKNOWN (null) gateway verdict. -/
theorem C4_unmatched_row_null (df cov : Df) (hv : covColsOk cov)
    (r : ℕ) (hr : r < df.nrows)
    (habs : coverage_map cov (binKey df r) = none) :
    (load_coverage_csv df cov).cell "dBm" r = Value.null ∧
    (load_coverage_csv df cov).cell "Gateway" r = Value.null := by
  constructor
  · rw [load_coverage_csv_cell_dBm df cov hv r hr, habs]; rfl
  · rw [load_coverage_csv_cell_gateway df cov hv r hr, habs]; rfl

/-- Concrete location table for the C4 witness: one row at `(1, 2)`. -/
def df4w : Df :=
  { cols := ["Latitude - Functional Location", "Longitude - Functional Location"],
    nrows := 1,
    cell := fun c _ =>
      if c = "Latitude - Functional Location" then Value.num 1
      else if c = "Longitude - Functional Location" then Value.num 2
      else Value.null }

/-- Concrete coverage table for the C4 witness: one reading at `(3, 4)`. -/
def cov4w : Df :=
  { cols := ["Latitud", "Longitud", "RSSI / RSCP (dBm)"], nrows := 1,
    cell := fun c _ =>
      if c = "Latitud" then Value.num 3
      else if c = "Longitud" then Value.num 4
      else if c = "RSSI / RSCP (dBm)" then Value.num (-50)
      else Value.null }

/-- C4 witness: the unmatched-row theorem applied to the concrete tables,
whose single location row at bin `(1, 2)` has no entry in the coverage
dictionary built from the single reading at bin `(3, 4)`. -/
theorem C4_unmatched_row_null_witness :
    (load_coverage_csv df4w cov4w).cell "dBm" 0 = Value.null ∧
    (load_coverage_csv df4w cov4w).cell "Gateway" 0 = Value.null := by
  have e1 : roundTo 10 (1 : ℚ) = 1 := by exact_mod_cast roundTo_intCast 10 1
  have e2 : roundTo 10 (2 : ℚ) = 2 := by exact_mod_cast roundTo_intCast 10 2
  have e3 : roundTo 10 (3 : ℚ) = 3 := by exact_mod_cast roundTo_intCast 10 3
  have e4 : roundTo 10 (4 : ℚ) = 4 := by exact_mod_cast roundTo_intCast 10 4
  refine C4_unmatched_row_null df4w cov4w (by decide) 0 (by decide) ?_
  norm_num [coverage_map, coverageEntries, buildMap, binKey, covKey, binOf,
    df4w, cov4w, List.range_succ, e1, e2, e3, e4]

theorem buildMap_append (l : List ((Value × Value) × Value))
    (e : (Value × Value) × Value) (k : Value × Value) :
    buildMap (l ++ [e]) k = if k = e.1 then some e.2 else buildMap l k := by
  unfold buildMap
  rw [List.foldl_append]
  rfl

/-- `to_dict` over entries generated per row: if row `i` bears key `k` and no
later row does, the dictionary maps `k` to the value of row `i`. -/
theorem buildMap_range_last (f : ℕ → (Value × Value) × Value) (n i : ℕ)
    (k : Value × Value) (hi : i < n) (hk : (f i).1 = k)
    (hlast : ∀ j, i < j → j < n → (f j).1 ≠ k) :
    buildMap ((List.range n).map f) k = some (f i).2 := by
  induction n with
  | zero => exact absurd hi (Nat.not_lt_zero i)
  | succ m ih =>
    rw [List.range_succ, List.map_append, List.map_singleton, buildMap_append]
    by_cases hm : i = m
    · subst hm
      rw [if_pos hk.symm]
    · have him : i < m := by omega
      rw [if_neg (fun h => hlast m (by omega) (by omega) h.symm)]
      exact ih him fun j hj1 hj2 => hlast j hj1 (by omega)

/-- C7: when the coverage table has duplicate bin keys, the dictionary
follows last-write-wins — for a key whose last occurrence is row `i`, the
retained signal value is that of row `i`, and every location row with that
bin key receives that value in its `dBm` column. -/
theorem C7_last_write_wins (cov : Df) (hv : covColsOk cov) (i : ℕ)
    (k : Value × Value) (hi : i < cov.nrows) (hk : covKey cov i = k)
    (hlast : ∀ j, i < j → j < cov.nrows → covKey cov j ≠ k) :
    coverage_map cov k = some (cov.cell "RSSI / RSCP (dBm)" i) ∧
    ∀ df : Df, ∀ r < df.nrows, binKey df r = k →
      (load_coverage_csv df cov).cell "dBm" r = cov.cell "RSSI / RSCP (dBm)" i := by
  have hmap : coverage_map cov k = some (cov.cell "RSSI / RSCP (dBm)" i) := by
    unfold coverage_map coverageEntries
    exact buildMap_range_last _ cov.nrows i k hi hk hlast
  refine ⟨hmap, fun df r hr hb => ?_⟩
  rw [load_coverage_csv_cell_dBm df cov hv r hr, hb, hmap]
  rfl

/-- Concrete coverage table for the C7 witness: two rows with the same bin
key `(1, 2)` and signal readings `-50` then `-60`. -/
def cov7w : Df :=
  { cols := ["Latitud", "Longitud", "RSSI / RSCP (dBm)"], nrows := 2,
    cell := fun c r =>
      if c = "Latitud" then Value.num 1
      else if c = "Longitud" then Value.num 2
      else if c = "RSSI / RSCP (dBm)" then
        (if r = 0 then Value.num (-50) else Value.num (-60))
      else Value.null }

/-- Concrete location table for the C7 witness: one row at the duplicated
bin `(1, 2)`. -/
def df7w : Df :=
  { cols := ["Latitude - Functional Location", "Longitude - Functional Location"],
    nrows := 1,
    cell := fun c _ =>
      if c = "Latitude - Functional Location" then Value.num 1
      else if c = "Longitude - Functional Location" then Value.num 2
      else Value.null }

/-- C7 witness: last-write-wins applied at the concrete duplicated bin — the
retained value is the second (last) reading `-60` and the matching
location row receives it. -/
theorem C7_last_write_wins_witness :
    coverage_map cov7w (covKey cov7w 1) = some (Value.num (-60)) ∧
    (load_coverage_csv df7w cov7w).cell "dBm" 0 = Value.num (-60) := by
  have h := C7_last_write_wins cov7w (by decide) 1 (covKey cov7w 1) (by decide) rfl
    (fun j hj1 hj2 => absurd hj1 (by
      have h2 : j < 2 := hj2
      omega))
  exact ⟨h.1, h.2 df7w 0 (by decide) rfl⟩

/-! ## Export with schedule generation (`continue_saving`,
src/fscoverage.py lines 364-432) -/

/-- Zero-padded two-digit rendering of a number below 100. -/
def pad2 (n : ℕ) : String :=
  if n < 10 then "0" ++ toString n else toString n

/-- `dt.time().strftime("%H:%M:%S")` for a datetime of `t` seconds since
the epoch. -/
def timeString (t : ℕ) : String :=
  pad2 (t / 3600 % 24) ++ ":" ++ pad2 (t / 60 % 60) ++ ":" ++ pad2 (t % 60)

/-- The four columns that receive the full datetime. -/
def dtCols : List String :=
  ["Promised window From - Work Order", "Promised window To - Work Order",
   "StartTime - Bookable Resource Booking", "EndTime - Bookable Resource Booking"]

/-- The two columns that receive only the time of day. -/
def timeCols : List String :=
  ["Time window From - Work Order", "Time window To - Work Order"]

/-- The required-column list hardcoded in `continue_saving`. -/
def required_columns : List String :=
  ["Name - Parent Functional Location",
   "Service Account - Work Order",
   "Work Order Type - Work Order",
   "Incident Type - Work Order",
   "Owner - Work Order",
   "Promised window From - Work Order",
   "Promised window To - Work Order",
   "Time window From - Work Order",
   "Time window To - Work Order",
   "Billing account - Work Order",
   "Name - Bookable Resource Booking",
   "StartTime - Bookable Resource Booking",
   "EndTime - Bookable Resource Booking"]

/-- `if col in self.df.columns: self.df[col] = series` — the guarded column
assignment used for the six schedule columns. -/
def setScheduleCol (d : Df) (c : String) (vals : ℕ → Value) : Df :=
  if c ∈ d.cols then setColSeries d c vals d.nrows else d

/-- The `missing_data` list of `continue_saving`: required columns that are
present in the table and contain a null somewhere. -/
def missingData (d : Df) : List String :=
  required_columns.filter fun c =>
    decide (c ∈ d.cols) && (List.range d.nrows).any fun r => decide (d.cell c r = Value.null)

/-- The outcome of an export attempt: blocked with the reported column
names, or the file saved. -/
inductive ExportOutcome where
  | blocked (missingCols : List String)
  | saved
deriving DecidableEq

/-- The timestamp assigned to row `i`: `with_datetime + timedelta(minutes=27 * i)`. -/
def schedAt (t0 i : ℕ) : ℕ := t0 + 27 * 60 * i

/-- The table after the schedule-column overwriting pass of
`continue_saving`: the four datetime columns and the two time-of-day
columns, those present in the table, are assigned the 27-minute increment
sequence. -/
def schedDf (df : Df) (t0 : ℕ) : Df :=
  setScheduleCol (setScheduleCol (setScheduleCol (setScheduleCol (setScheduleCol
    (setScheduleCol df
      "Promised window From - Work Order" (fun i => Value.dtv (schedAt t0 i)))
      "Promised window To - Work Order" (fun i => Value.dtv (schedAt t0 i)))
      "StartTime - Bookable Resource Booking" (fun i => Value.dtv (schedAt t0 i)))
      "EndTime - Bookable Resource Booking" (fun i => Value.dtv (schedAt t0 i)))
      "Time window From - Work Order" (fun i => Value.str (timeString (schedAt t0 i))))
      "Time window To - Work Order" (fun i => Value.str (timeString (schedAt t0 i)))

/-- `continue_saving(with_datetime)`: overwrite the six schedule columns,
then block the export when some present required column contains a null,
reporting those columns, and otherwise save the table as it stands. -/
def continue_saving (df : Df) (t0 : ℕ) : Df × ExportOutcome :=
  if (missingData (schedDf df t0)).isEmpty then (schedDf df t0, ExportOutcome.saved)
  else (schedDf df t0, ExportOutcome.blocked (missingData (schedDf df t0)))

theorem setScheduleCol_cols (d : Df) (c : String) (vals : ℕ → Value) :
    (setScheduleCol d c vals).cols = d.cols := by
  unfold setScheduleCol
  by_cases h : c ∈ d.cols
  · have hne : d.cols ≠ [] := by
      intro he; rw [he] at h; cases h
    rw [if_pos h, setColSeries_cols, if_neg hne, if_pos h]
  · rw [if_neg h]

theorem setScheduleCol_nrows (d : Df) (c : String) (vals : ℕ → Value) :
    (setScheduleCol d c vals).nrows = d.nrows := by
  unfold setScheduleCol
  by_cases h : c ∈ d.cols
  · have hne : d.cols ≠ [] := by
      intro he; rw [he] at h; cases h
    rw [if_pos h, setColSeries_nrows, if_neg hne]
  · rw [if_neg h]

theorem setScheduleCol_cell_other (d : Df) (c : String) (vals : ℕ → Value)
    (x : String) (hx : x ≠ c) (r : ℕ) :
    (setScheduleCol d c vals).cell x r = d.cell x r := by
  unfold setScheduleCol
  by_cases h : c ∈ d.cols
  · have hne : d.cols ≠ [] := by
      intro he; rw [he] at h; cases h
    rw [if_pos h, setColSeries_cell, if_neg hx, if_neg hne]
  · rw [if_neg h]

theorem setScheduleCol_cell_self (d : Df) (c : String) (vals : ℕ → Value)
    (hc : c ∈ d.cols) (r : ℕ) (hr : r < d.nrows) :
    (setScheduleCol d c vals).cell c r = vals r := by
  unfold setScheduleCol
  rw [if_pos hc, setColSeries_cell, if_pos rfl, if_pos hr]

/-- The table returned by `continue_saving` is the schedule-overwritten
table in both the blocked and the saved case. -/
theorem continue_saving_fst (df : Df) (t0 : ℕ) :
    (continue_saving df t0).1 = schedDf df t0 := by
  unfold continue_saving
  by_cases h : (missingData (schedDf df t0)).isEmpty <;> simp [h]

/-- The outcome of `continue_saving` as a function of the `missing_data`
list. -/
theorem continue_saving_snd (df : Df) (t0 : ℕ) :
    (continue_saving df t0).2 =
      if (missingData (schedDf df t0)).isEmpty then ExportOutcome.saved
      else ExportOutcome.blocked (missingData (schedDf df t0)) := by
  unfold continue_saving
  by_cases h : (missingData (schedDf df t0)).isEmpty <;> simp [h]

theorem schedDf_cols (df : Df) (t0 : ℕ) : (schedDf df t0).cols = df.cols := by
  unfold schedDf
  rw [setScheduleCol_cols, setScheduleCol_cols, setScheduleCol_cols,
    setScheduleCol_cols, setScheduleCol_cols, setScheduleCol_cols]

theorem schedDf_nrows (df : Df) (t0 : ℕ) : (schedDf df t0).nrows = df.nrows := by
  unfold schedDf
  rw [setScheduleCol_nrows, setScheduleCol_nrows, setScheduleCol_nrows,
    setScheduleCol_nrows, setScheduleCol_nrows, setScheduleCol_nrows]

/-- Columns outside the six schedule columns are untouched by the schedule
pass. -/
theorem schedDf_cell_other (df : Df) (t0 : ℕ) (c : String)
    (hdt : c ∉ dtCols) (htm : c ∉ timeCols) (r : ℕ) :
    (schedDf df t0).cell c r = df.cell c r := by
  simp only [dtCols, timeCols, List.mem_cons, List.not_mem_nil, or_false] at hdt htm
  push_neg at hdt htm
  obtain ⟨n1, n2, n3, n4⟩ := hdt
  obtain ⟨n5, n6⟩ := htm
  unfold schedDf
  rw [setScheduleCol_cell_other _ _ _ _ n6, setScheduleCol_cell_other _ _ _ _ n5,
    setScheduleCol_cell_other _ _ _ _ n4, setScheduleCol_cell_other _ _ _ _ n3,
    setScheduleCol_cell_other _ _ _ _ n2, setScheduleCol_cell_other _ _ _ _ n1]

/-- A present datetime schedule column holds `T0 + i * 27min` at row `i`
after the schedule pass. -/
theorem schedDf_cell_dt (df : Df) (t0 : ℕ) (c : String)
    (hc : c ∈ dtCols) (hm : c ∈ df.cols) (i : ℕ) (hi : i < df.nrows) :
    (schedDf df t0).cell c i = Value.dtv (schedAt t0 i) := by
  fin_cases hc <;>
  · unfold schedDf
    simp [setScheduleCol_cell_other, setScheduleCol_cell_self,
      setScheduleCol_cols, setScheduleCol_nrows, hm, hi]

/-- A present time-of-day schedule column holds the `HH:MM:SS` rendering of
`T0 + i * 27min` at row `i` after the schedule pass. -/
theorem schedDf_cell_time (df : Df) (t0 : ℕ) (c : String)
    (hc : c ∈ timeCols) (hm : c ∈ df.cols) (i : ℕ) (hi : i < df.nrows) :
    (schedDf df t0).cell c i = Value.str (timeString (schedAt t0 i)) := by
  fin_cases hc <;>
  · unfold schedDf
    simp [setScheduleCol_cell_other, setScheduleCol_cell_self,
      setScheduleCol_cols, setScheduleCol_nrows, hm, hi]

/-- C3: for every table and start timestamp `T0`, the schedule pass of the
export assigns row `i` (0-based, in row order) the timestamp
`T0 + i * 27` minutes; the four designated full-timestamp columns present
in the table receive these datetimes and the two designated time-only
columns present receive their `HH:MM:SS` component; re-running the export
with a new `T1` overwrites all six columns unconditionally for every row
with the sequence generated from `T1`. -/
theorem C3_schedule_sequencer (df : Df) (t0 : ℕ) :
    (∀ c ∈ dtCols, c ∈ df.cols → ∀ i < df.nrows,
      (continue_saving df t0).1.cell c i = Value.dtv (t0 + 27 * 60 * i)) ∧
    (∀ c ∈ timeCols, c ∈ df.cols → ∀ i < df.nrows,
      (continue_saving df t0).1.cell c i = Value.str (timeString (t0 + 27 * 60 * i))) ∧
    (∀ t1 : ℕ,
      (∀ c ∈ dtCols, c ∈ df.cols → ∀ i < df.nrows,
        (continue_saving (continue_saving df t0).1 t1).1.cell c i =
          Value.dtv (t1 + 27 * 60 * i)) ∧
      (∀ c ∈ timeCols, c ∈ df.cols → ∀ i < df.nrows,
        (continue_saving (continue_saving df t0).1 t1).1.cell c i =
          Value.str (timeString (t1 + 27 * 60 * i)))) := by
  have hm1 : ∀ c, c ∈ df.cols → c ∈ (continue_saving df t0).1.cols := by
    intro c hc; rwa [continue_saving_fst, schedDf_cols]
  have hn1 : ∀ i, i < df.nrows → i < (continue_saving df t0).1.nrows := by
    intro i hi; rwa [continue_saving_fst, schedDf_nrows]
  refine ⟨?_, ?_, fun t1 => ⟨?_, ?_⟩⟩
  · intro c hc hm i hi
    rw [continue_saving_fst]
    exact schedDf_cell_dt df t0 c hc hm i hi
  · intro c hc hm i hi
    rw [continue_saving_fst]
    exact schedDf_cell_time df t0 c hc hm i hi
  · intro c hc hm i hi
    rw [continue_saving_fst (continue_saving df t0).1 t1]
    exact schedDf_cell_dt _ t1 c hc (hm1 c hm) i (hn1 i hi)
  · intro c hc hm i hi
    rw [continue_saving_fst (continue_saving df t0).1 t1]
    exact schedDf_cell_time _ t1 c hc (hm1 c hm) i (hn1 i hi)

/-- Concrete table for the C3 witness: five rows bearing the six schedule
columns (initially null) and nothing else. -/
def df3w : Df :=
  { cols := ["Promised window From - Work Order", "Promised window To - Work Order",
             "StartTime - Bookable Resource Booking", "EndTime - Bookable Resource Booking",
             "Time window From - Work Order", "Time window To - Work Order"],
    nrows := 5, cell := fun _ _ => Value.null }

/-- C3 witness: the schedule theorem applied to the concrete five-row table
at `T0` = 09:00:00 (32400 seconds into the day): rows 0, 1, 4 receive
09:00:00, 09:27:00 and 10:48:00, and a re-run at 10:00:00 (36000 s)
overwrites row 2 with 10:54:00. -/
theorem C3_schedule_sequencer_witness :
    (continue_saving df3w 32400).1.cell "Promised window From - Work Order" 0 =
      Value.dtv 32400 ∧
    (continue_saving df3w 32400).1.cell "StartTime - Bookable Resource Booking" 4 =
      Value.dtv 38880 ∧
    (continue_saving df3w 32400).1.cell "Time window From - Work Order" 1 =
      Value.str "09:27:00" ∧
    (continue_saving (continue_saving df3w 32400).1 36000).1.cell
      "Promised window To - Work Order" 2 = Value.dtv 39240 := by
  have h := C3_schedule_sequencer df3w 32400
  refine ⟨h.1 _ (by decide) (by decide) 0 (by decide),
    h.1 _ (by decide) (by decide) 4 (by decide), ?_,
    (h.2.2 36000).1 _ (by decide) (by decide) 2 (by decide)⟩
  rw [h.2.1 _ (by decide) (by decide) 1 (by decide)]
  rfl

/-- Concrete table for the C2 counterexample: one row, a null required
column `Owner - Work Order`, and a schedule column holding an old
datetime. -/
def df2cex : Df :=
  { cols := ["Owner - Work Order", "Promised window From - Work Order"], nrows := 1,
    cell := fun c _ =>
      if c = "Promised window From - Work Order" then Value.dtv 0 else Value.null }

/-- C2 counterexample: exporting this table at `T0 = 600` is blocked with
exactly the offending column reported, yet the WorkingTable is not left
unchanged — the schedule column `Promised window From - Work Order` was
overwritten from its pre-export value `dtv 0` to `dtv 600` before the
check. -/
theorem C2_export_block_counterexample :
    (continue_saving df2cex 600).2 = ExportOutcome.blocked ["Owner - Work Order"] ∧
    df2cex.cell "Promised window From - Work Order" 0 = Value.dtv 0 ∧
    (continue_saving df2cex 600).1.cell "Promised window From - Work Order" 0 =
      Value.dtv 600 := by
  decide

/-- C2 (amended): when some required column present in the table still
contains a null after the schedule columns are overwritten, the export is
blocked, the reported list is exactly the present-and-null required
columns, and every column outside the six schedule columns keeps its
pre-export value in every row; the present schedule columns themselves,
however, have already been overwritten with the new sequence. -/
theorem C2_export_block_amended (df : Df) (t0 : ℕ) (c : String)
    (hreq : c ∈ required_columns) (hm : c ∈ df.cols)
    (hnull : ∃ r < df.nrows, (continue_saving df t0).1.cell c r = Value.null) :
    (continue_saving df t0).2 = ExportOutcome.blocked (missingData (schedDf df t0)) ∧
    c ∈ missingData (schedDf df t0) ∧
    (∀ x, x ∈ missingData (schedDf df t0) ↔
      x ∈ required_columns ∧ x ∈ df.cols ∧
        ∃ r < df.nrows, (continue_saving df t0).1.cell x r = Value.null) ∧
    (∀ x ∈ df.cols, x ∉ dtCols → x ∉ timeCols → ∀ r,
      (continue_saving df t0).1.cell x r = df.cell x r) := by
  have hchar : ∀ x, x ∈ missingData (schedDf df t0) ↔
      x ∈ required_columns ∧ x ∈ df.cols ∧
        ∃ r < df.nrows, (continue_saving df t0).1.cell x r = Value.null := by
    intro x
    unfold missingData
    rw [List.mem_filter]
    simp only [Bool.and_eq_true, decide_eq_true_eq, List.any_eq_true, List.mem_range,
      schedDf_cols, schedDf_nrows, continue_saving_fst]
  have hcmem : c ∈ missingData (schedDf df t0) := (hchar c).2 ⟨hreq, hm, hnull⟩
  have hne : ¬ (missingData (schedDf df t0)).isEmpty = true := by
    rw [List.isEmpty_iff]
    exact List.ne_nil_of_mem hcmem
  refine ⟨?_, hcmem, hchar, ?_⟩
  · rw [continue_saving_snd, if_neg hne]
  · intro x hx hdt htm r
    rw [continue_saving_fst]
    exact schedDf_cell_other df t0 x hdt htm r

/-- C2 witness: the amended export-block theorem applied to the concrete
one-row table with a null `Owner - Work Order`. -/
theorem C2_export_block_amended_witness :
    (continue_saving df2cex 600).2 =
      ExportOutcome.blocked (missingData (schedDf df2cex 600)) ∧
    "Owner - Work Order" ∈ missingData (schedDf df2cex 600) ∧
    (continue_saving df2cex 600).1.cell "Owner - Work Order" 0 =
      df2cex.cell "Owner - Work Order" 0 := by
  have h := C2_export_block_amended df2cex 600 "Owner - Work Order"
    (by decide) (by decide) ⟨0, by decide, by decide⟩
  exact ⟨h.1, h.2.1, h.2.2.2 "Owner - Work Order" (by decide) (by decide) (by decide) 0⟩

/-- Concrete one-row location file for the C9 export-success scenario. -/
def csv9w : Df :=
  { cols := ["Latitud", "Longitud"], nrows := 1,
    cell := fun c _ =>
      if c = "Latitud" then Value.num 14 else if c = "Longitud" then Value.num (-17)
      else Value.null }

/-- C9: the export completeness check inspects only required columns that
exist in the table — a required column entirely absent from the columns is
never reported and never blocks; in particular the hardcoded required name
`Billing account - Work Order` differs from the column
`Billing Account - Work Order` created at ingestion, and a table built by
ingestion exports successfully although that required name (and others)
are absent altogether. -/
theorem C9_missing_required_column_skipped :
    (∀ (df : Df) (t0 : ℕ) (c : String), c ∉ df.cols →
      c ∉ missingData (schedDf df t0)) ∧
    "Billing account - Work Order" ≠ "Billing Account - Work Order" ∧
    "Billing account - Work Order" ∈ required_columns ∧
    "Billing Account - Work Order" ∈ (load_csv emptyDf csv9w).cols ∧
    "Billing account - Work Order" ∉ (load_csv emptyDf csv9w).cols ∧
    (continue_saving (load_csv emptyDf csv9w) 0).2 = ExportOutcome.saved := by
  refine ⟨?_, by decide, by decide, by decide, by decide, by decide⟩
  intro df t0 c hc hmem
  unfold missingData at hmem
  rw [List.mem_filter] at hmem
  have h2 := hmem.2
  rw [Bool.and_eq_true, decide_eq_true_eq, schedDf_cols] at h2
  exact hc h2.1

/-- C9 witness: the quantified part applied at the ingested table and the
mismatched required name. -/
theorem C9_missing_required_column_skipped_witness :
    "Billing account - Work Order" ∉
      missingData (schedDf (load_csv emptyDf csv9w) 0) :=
  C9_missing_required_column_skipped.1 (load_csv emptyDf csv9w) 0
    "Billing account - Work Order" (by decide)

/-! ## Bulk edit (`add_block_data` / `apply_block_data`,
src/fscoverage.py lines 173-239) -/

/-- The configuration read from `config.ini`: protected columns, the
enumerated dropdown value lists, and the parent-to-children map. -/
structure Config where
  protected_columns : List String
  dropdown_values : List (String × List String)
  parent_child_map : List (String × List String)

/-- Association-list lookup (Python dict access by key). -/
def lookupA (l : List (String × List String)) (k : String) : Option (List String) :=
  (l.find? fun p => decide (p.1 = k)).map Prod.snd

/-- The fate of a bulk edit. -/
inductive BlockResult where
  | rejected
  | applied
deriving DecidableEq

/-- `apply_block_data`: reject when the chosen column has an enumerated
dropdown list and the value is not in it; reject when the column or the
value is empty; otherwise set the whole column to the value.  No other
check is made — in particular no parent/child consistency check. -/
def apply_block_data (cfg : Config) (df : Df) (selected_column value : String) :
    Df × BlockResult :=
  match lookupA cfg.dropdown_values selected_column with
  | some allowed =>
    if value ∉ allowed then (df, BlockResult.rejected)
    else if selected_column ≠ "" ∧ value ≠ "" then
      (setColScalar df selected_column (Value.str value), BlockResult.applied)
    else (df, BlockResult.rejected)
  | none =>
    if selected_column ≠ "" ∧ value ≠ "" then
      (setColScalar df selected_column (Value.str value), BlockResult.applied)
    else (df, BlockResult.rejected)

/-- Concrete configuration for the C8 counterexample: no dropdown entry for
the child column, and `P1` admitting only the child `C1x`. -/
def cfg8cex : Config :=
  { protected_columns := [], dropdown_values := [],
    parent_child_map := [("P1", ["C1x"])] }

/-- Concrete table for the C8 counterexample: one row whose parent column
uniformly holds `P1`. -/
def df8cex : Df :=
  { cols := ["Name - Parent Functional Location"], nrows := 1,
    cell := fun c _ =>
      if c = "Name - Parent Functional Location" then Value.str "P1" else Value.null }

/-- C8 counterexample: the bulk edit that sets the child column to
`NOT_A_CHILD` — a value inconsistent with the sole parent value `P1`,
whose only valid child is `C1x` — is applied, mutating the WorkingTable,
instead of being rejected. -/
theorem C8_bulk_edit_counterexample :
    (∀ ch, lookupA cfg8cex.parent_child_map "P1" = some ch → "NOT_A_CHILD" ∉ ch) ∧
    df8cex.cell "Name - Parent Functional Location" 0 = Value.str "P1" ∧
    (apply_block_data cfg8cex df8cex "Name - Child Functional Location" "NOT_A_CHILD").2 =
      BlockResult.applied ∧
    (apply_block_data cfg8cex df8cex "Name - Child Functional Location" "NOT_A_CHILD").1.cell
      "Name - Child Functional Location" 0 = Value.str "NOT_A_CHILD" := by
  refine ⟨?_, by decide, by decide, by decide⟩
  intro ch hch
  have : ch = ["C1x"] := by
    have := hch
    unfold lookupA cfg8cex at this
    simp at this
    exact this.symm
  rw [this]
  decide

/-- C8 (amended): a bulk edit whose value lies outside the enumerated
allowed set configured for the chosen column is rejected and the
WorkingTable is not mutated at all (likewise when the column or the value
is empty); but no parent/child consistency check is applied — the UI only
pre-populates the child options and warns when parent values are
inconsistent, and whatever child value is submitted is applied. -/
theorem C8_bulk_edit_amended (cfg : Config) (df : Df) (col v : String)
    (allowed : List String)
    (hdd : lookupA cfg.dropdown_values col = some allowed)
    (hv : v ∉ allowed) :
    apply_block_data cfg df col v = (df, BlockResult.rejected) := by
  unfold apply_block_data
  rw [hdd]
  simp [hv]

/-- C8 witness: a bulk edit with a value outside the enumerated list for
the chosen column is rejected without mutation. -/
theorem C8_bulk_edit_amended_witness :
    apply_block_data
      { protected_columns := [], parent_child_map := [],
        dropdown_values := [("Incident Type - Work Order", ["A", "B"])] }
      df8cex "Incident Type - Work Order" "C" = (df8cex, BlockResult.rejected) :=
  C8_bulk_edit_amended _ df8cex "Incident Type - Work Order" "C" ["A", "B"]
    (by decide) (by decide)

/-! ## Granular per-row edit (`edit_selected_rows` / `save_changes`,
src/fscoverage.py lines 242-338) -/

/-- Python `str.strip()`: drop leading and trailing whitespace. -/
def stripStr (s : String) : String :=
  ⟨((s.data.dropWhile Char.isWhitespace).reverse.dropWhile Char.isWhitespace).reverse⟩

/-- The entry text offered for column `c`: the edit window builds one entry
per non-protected column, in column order, so the entry for `c` is the one
at the position of `c` among the non-protected columns. -/
def entryFor (prot : List String) (cols : List String) (entries : List String)
    (c : String) : Option String :=
  ((cols.filter fun x => decide (x ∉ prot)).findIdx? fun x => decide (x = c)).bind
    fun i => entries.get? i

/-- `save_changes`: for every selected row and every non-protected column,
overwrite the cell with the entered text when it is non-empty after
stripping whitespace; protected columns are skipped and empty entries
leave the cell as it was. -/
def save_changes (prot : List String) (entries : List String) (selected : List ℕ)
    (df : Df) : Df :=
  { cols := df.cols, nrows := df.nrows,
    cell := fun c r =>
      if r ∈ selected ∧ c ∈ df.cols ∧ c ∉ prot then
        match entryFor prot df.cols entries c with
        | some v => if stripStr v ≠ "" then Value.str v else df.cell c r
        | none => df.cell c r
      else df.cell c r }

/-- C10: in a granular edit, for every selected row and non-protected
column, the cell is overwritten with the entered text exactly when that
text is non-empty after stripping whitespace; a whitespace-only entry
leaves the cell unchanged; protected columns and unselected rows are
never modified. -/
theorem C10_granular_edit (prot : List String) (entries : List String)
    (selected : List ℕ) (df : Df) (c : String) (r : ℕ) :
    (c ∈ prot → (save_changes prot entries selected df).cell c r = df.cell c r) ∧
    (r ∉ selected → (save_changes prot entries selected df).cell c r = df.cell c r) ∧
    (∀ v, r ∈ selected → c ∈ df.cols → c ∉ prot →
      entryFor prot df.cols entries c = some v →
      (stripStr v = "" → (save_changes prot entries selected df).cell c r = df.cell c r) ∧
      (stripStr v ≠ "" →
        (save_changes prot entries selected df).cell c r = Value.str v)) := by
  refine ⟨?_, ?_, ?_⟩
  · intro hp
    unfold save_changes
    simp only
    rw [if_neg (by tauto)]
  · intro hs
    unfold save_changes
    simp only
    rw [if_neg (by tauto)]
  · intro v hs hm hp he
    unfold save_changes
    simp only
    rw [if_pos ⟨hs, hm, hp⟩, he]
    exact ⟨fun hv => by simp [hv], fun hv => by simp [hv]⟩

/-- Concrete table for the C10 witness: one row with a protected column
`P`, and free columns `A` and `B`. -/
def df10w : Df :=
  { cols := ["P", "A", "B"], nrows := 1,
    cell := fun c _ =>
      if c = "P" then Value.str "keep" else Value.str "old" }

/-- C10 witness: with entries `"hello"` for `A` and a whitespace-only
entry for `B`, an edit of row 0 overwrites `A`, leaves `B` unchanged, and
leaves the protected `P` unchanged. -/
theorem C10_granular_edit_witness :
    (save_changes ["P"] ["hello", "  "] [0] df10w).cell "A" 0 = Value.str "hello" ∧
    (save_changes ["P"] ["hello", "  "] [0] df10w).cell "B" 0 = df10w.cell "B" 0 ∧
    (save_changes ["P"] ["hello", "  "] [0] df10w).cell "P" 0 = df10w.cell "P" 0 := by
  refine ⟨?_, ?_, ?_⟩
  · exact ((C10_granular_edit ["P"] ["hello", "  "] [0] df10w "A" 0).2.2 "hello"
      (by decide) (by decide) (by decide) (by decide)).2 (by decide)
  · exact ((C10_granular_edit ["P"] ["hello", "  "] [0] df10w "B" 0).2.2 "  "
      (by decide) (by decide) (by decide) (by decide)).1 (by decide)
  · exact (C10_granular_edit ["P"] ["hello", "  "] [0] df10w "P" 0).1 (by decide)

/-! ## Template reconciler (spec section 4.5) -/

/-- Modelled from the spec: the Template Reconciler of spec section 4.5 is
code of the repository that is not present in `src/fscoverage.py` (the
export there writes the table as it stands), so it is modelled from the
specification contract: given an ordered list of template column names,
return a table with exactly those columns in that order, columns missing
from the source filled with empty-string placeholders, extra columns
dropped, and pre-existing matching columns keeping their data; the input
table is not mutated (the function is pure on `Df`). -/
def reconcile (template : List String) (df : Df) : Df :=
  { cols := template, nrows := df.nrows,
    cell := fun c r =>
      if c ∈ template then
        (if c ∈ df.cols then df.cell c r else Value.str "")
      else Value.null }

/-- C5: the reconciled table has exactly the template columns in template
order and the source row count; matching columns keep their data; columns
absent from the source are empty-string placeholders; and reconciling an
already-reconciled table against the same template changes nothing. -/
theorem C5_template_reconciler (template : List String) (df : Df) :
    (reconcile template df).cols = template ∧
    (reconcile template df).nrows = df.nrows ∧
    (∀ c ∈ template, c ∈ df.cols → ∀ r,
      (reconcile template df).cell c r = df.cell c r) ∧
    (∀ c ∈ template, c ∉ df.cols → ∀ r,
      (reconcile template df).cell c r = Value.str "") ∧
    Df.Eq (reconcile template (reconcile template df)) (reconcile template df) := by
  refine ⟨rfl, rfl, ?_, ?_, rfl, rfl, ?_⟩
  · intro c hc hm r
    show (if c ∈ template then (if c ∈ df.cols then df.cell c r else Value.str "")
      else Value.null) = df.cell c r
    rw [if_pos hc, if_pos hm]
  · intro c hc hm r
    show (if c ∈ template then (if c ∈ df.cols then df.cell c r else Value.str "")
      else Value.null) = Value.str ""
    rw [if_pos hc, if_neg hm]
  · intro c hc r hr
    have hc2 : c ∈ template := hc
    simp [reconcile, hc2]

/-- Concrete source table for the C5 witness: one row with a matching
column `T1` and an extra column `X` that the template drops. -/
def df5w : Df :=
  { cols := ["T1", "X"], nrows := 1,
    cell := fun c _ =>
      if c = "T1" then Value.str "a" else if c = "X" then Value.str "x"
      else Value.null }

/-- C5 witness: the reconciler theorem applied to the concrete table and
the template `["T1", "T2"]`. -/
theorem C5_template_reconciler_witness :
    (reconcile ["T1", "T2"] df5w).cols = ["T1", "T2"] ∧
    (reconcile ["T1", "T2"] df5w).cell "T1" 0 = df5w.cell "T1" 0 ∧
    (reconcile ["T1", "T2"] df5w).cell "T2" 0 = Value.str "" ∧
    Df.Eq (reconcile ["T1", "T2"] (reconcile ["T1", "T2"] df5w))
      (reconcile ["T1", "T2"] df5w) := by
  have h := C5_template_reconciler ["T1", "T2"] df5w
  exact ⟨h.1, h.2.2.1 "T1" (by decide) (by decide) 0,
    h.2.2.2.1 "T2" (by decide) (by decide) 0, h.2.2.2.2⟩

end FsCoverage
